import Mathlib

/- Formal model of the trytond-shipping-endicia module (src/sale.py).

   The module extends a sales-order system with Endicia/USPS postage:
   it computes per-line shipment weight in ounces, calls an external
   rate API, and reconciles the returned cost into the order's lines.

   Modelling conventions:
   - Python Decimal and float values are modelled as rationals.
   - Python truthiness on numeric fields is modelled explicitly:
     a value is falsy exactly when it is absent (none) or zero.
   - Exceptions (raise_user_error) are modelled with Except: an error
     outcome means the operation aborted and no write was committed.
   - External collaborators (the unit-of-measure conversion service and
     the Endicia rate endpoint) are fields of an environment record. -/

namespace Endicia

/-- Unit of measure, as much of it as sale.py reads: an identity and the
symbol used by the `oz` lookup. -/
structure Uom where
  id : Nat
  symbol : String
deriving DecidableEq

/-- Product fields read by sale.py: type (service or goods), name, the
optional per-unit weight, the default uom, the weight uom and the sale uom
(the latter read from the carrier product when the shipping line is built). -/
structure Product where
  id : Nat
  name : String
  type : String
  weight : Option ℚ
  default_uom : Uom
  weight_uom : Uom
  sale_uom : Uom
deriving DecidableEq

/-- Endicia mail class: display name and the opaque code sent to the API. -/
structure MailClass where
  name : String
  value : String
deriving DecidableEq

/-- Carrier fields read by sale.py: the cost-method discriminator and the
carrier product used for the generated shipping line. -/
structure Carrier where
  carrier_cost_method : String
  carrier_product : Product
deriving DecidableEq

/-- Postal address fields used by the rate request. -/
structure Address where
  zip : String
  country_code : String
deriving DecidableEq

/-- Endicia account credentials, from company.get_endicia_credentials(). -/
structure EndiciaCredentials where
  account_id : Nat
  requester_id : String
  passphrase : String
  usps_test : Bool
deriving DecidableEq

/-- Sale line fields read and written by sale.py. `shipment_cost` is the
marker field: a line with a truthy shipment cost is a shipping-charge line. -/
structure SaleLine where
  type : String
  product : Product
  description : String
  quantity : ℚ
  unit : Uom
  unit_price : ℚ
  shipment_cost : Option ℚ
  amount : ℚ
  taxes : List Nat
  sequence : ℤ
deriving DecidableEq

/-- Sale fields read by sale.py. `warehouse_zip` stands for
warehouse.address.zip and `credentials` for company.get_endicia_credentials(). -/
structure Sale where
  carrier : Option Carrier
  endicia_mailclass : Option MailClass
  is_endicia_shipping : Bool
  lines : List SaleLine
  warehouse_zip : String
  shipment_address : Address
  credentials : EndiciaCredentials
deriving DecidableEq

/-- The CalculatingPostageAPI request exactly as get_endicia_shipping_cost
builds it (src/sale.py lines 194-206). -/
structure PostageRequest where
  mailclass : String
  weightoz : ℤ
  from_postal_code : String
  to_postal_code : String
  to_country_code : String
  accountid : Nat
  requesterid : String
  passphrase : String
  test : Bool
deriving DecidableEq

/-- User-facing errors raised by sale.py: `mailclass_missing` and
`weight_required` (naming the product) via raise_user_error, and
`none_attribute` for the attribute access self.endicia_mailclass.id
performed on a sale without a mail class in create_shipment. -/
inductive SaleError where
  | mailclass_missing : SaleError
  | weight_required : String → SaleError
  | none_attribute : SaleError
deriving DecidableEq

/-- Environment of external collaborators: the unit-of-measure conversion
service (ProductUom.compute_qty and the uom found by the symbol = oz
search), and the Endicia endpoint, modelled as the total-amount figure the
rate API answers for a given request. -/
structure Env where
  compute_qty : Uom → ℚ → Uom → ℚ
  ounce : Uom
  postage : PostageRequest → ℚ

/-- Embeds SaleLine.get_weight_for_endicia (src/sale.py lines 226-262).
Service lines return 0 before any weight check; a falsy product weight
(absent or zero) raises weight_required naming the product; otherwise the
quantity is converted into the product default uom when the line unit
differs, multiplied by the per-unit weight, converted into ounces when the
weight uom symbol is not oz, and the ceiling is returned. -/
def get_weight_for_endicia (env : Env) (l : SaleLine) : Except SaleError ℤ :=
  if l.product.type = "service" then .ok 0
  else
    match l.product.weight with
    | none => .error (.weight_required l.product.name)
    | some w =>
      if w = 0 then .error (.weight_required l.product.name)
      else
        let quantity : ℚ :=
          if l.unit ≠ l.product.default_uom then
            env.compute_qty l.unit l.quantity l.product.default_uom
          else l.quantity
        let raw : ℚ := w * quantity
        let oz : ℚ :=
          if l.product.weight_uom.symbol ≠ "oz" then
            env.compute_qty l.product.weight_uom raw env.ounce
          else raw
        .ok ⌈oz⌉

/-- Left-to-right summation of per-line weights, embedding the expression
sum(map(lambda line: line.get_weight_for_endicia(), self.lines)) in
get_endicia_shipping_cost (src/sale.py lines 196-198); the first raised
error aborts the sum. -/
def weight_sum (env : Env) : List SaleLine → Except SaleError ℤ
  | [] => .ok 0
  | l :: rest =>
    match get_weight_for_endicia env l with
    | .error e => .error e
    | .ok w =>
      match weight_sum env rest with
      | .error e => .error e
      | .ok s => .ok (w + s)

/-- Embeds the request-construction part of Sale.get_endicia_shipping_cost
(src/sale.py lines 189-206): the mail-class check, the weight summation and
the CalculatingPostageAPI argument list. Errors raised here occur before
send_request, hence before any network traffic. -/
def build_postage_request (env : Env) (s : Sale) : Except SaleError PostageRequest :=
  match s.endicia_mailclass with
  | none => .error .mailclass_missing
  | some mc =>
    match weight_sum env s.lines with
    | .error e => .error e
    | .ok w =>
      .ok { mailclass := mc.value
            weightoz := w
            from_postal_code := s.warehouse_zip
            to_postal_code := s.shipment_address.zip
            to_country_code := s.shipment_address.country_code
            accountid := s.credentials.account_id
            requesterid := s.credentials.requester_id
            passphrase := s.credentials.passphrase
            test := s.credentials.usps_test }

/-- Embeds Sale.get_endicia_shipping_cost (src/sale.py lines 184-212):
build the request, send it, and read the PostagePrice total amount. -/
def get_endicia_shipping_cost (env : Env) (s : Sale) : Except SaleError ℚ :=
  match build_postage_request env s with
  | .error e => .error e
  | .ok req => .ok (env.postage req)

/-- A line is selected for deletion by apply_endicia_shipping when its
shipment_cost is truthy (src/sale.py line 148): present and nonzero. -/
def is_shipping_line (l : SaleLine) : Bool :=
  match l.shipment_cost with
  | none => false
  | some c => if c = 0 then false else true

/-- The line dictionary created by apply_endicia_shipping (src/sale.py
lines 135-146): quantity 1, the carrier product and its sale uom, the
mail-class name as description, the returned cost as unit price, shipment
cost and amount, no taxes, and the fixed sequence 9999. -/
def mk_shipping_line (carrier : Carrier) (mc : MailClass) (cost : ℚ) : SaleLine :=
  { type := "line"
    product := carrier.carrier_product
    description := mc.name
    quantity := 1
    unit := carrier.carrier_product.sale_uom
    unit_price := cost
    shipment_cost := some cost
    amount := cost
    taxes := []
    sequence := 9999 }

/-- Embeds Sale.apply_endicia_shipping (src/sale.py lines 122-151).
The first component is the outcome: on ok, the line collection after the
bulk write (the lines whose shipment_cost is falsy, in their original
order, followed by the newly created shipping line); on error, the aborted
operation committed nothing. The second component counts invocations of
the rate API: the carrier.get_sale_price() call dispatches (per the spec,
the applicator is the sole place rates are fetched for the order) to
get_endicia_shipping_cost, whose send_request runs only after the request
was built, so a mail-class or weight error happens before any network
call. The guard on the returned cost is Python truthiness: only an exact
zero (or absent) cost short-circuits into the no-op branch. -/
def apply_endicia_shipping (env : Env) (s : Sale) :
    Except SaleError (List SaleLine) × Nat :=
  match s.carrier with
  | none => (.ok s.lines, 0)
  | some carrier =>
    if carrier.carrier_cost_method = "endicia" then
      match s.endicia_mailclass with
      | none => (.error .mailclass_missing, 0)
      | some mc =>
        match build_postage_request env s with
        | .error e => (.error e, 0)
        | .ok req =>
          let cost := env.postage req
          if cost = 0 then (.ok s.lines, 1)
          else
            (.ok (s.lines.filter (fun l => ! is_shipping_line l) ++
              [mk_shipping_line carrier mc cost]), 1)
    else (.ok s.lines, 0)

/-- The sale's line collection after apply_endicia_shipping ran: an error
outcome means the exception propagated before the bulk write, leaving the
collection as it was. -/
def lines_after_apply (env : Env) (s : Sale) : List SaleLine :=
  match (apply_endicia_shipping env s).1 with
  | .ok ls => ls
  | .error _ => s.lines

/-- Number of shipping-charge lines in a line collection. -/
def shipping_line_count (ls : List SaleLine) : Nat :=
  (ls.filter is_shipping_line).length

/-- Sale.apply_endicia_shipping viewed as a transformation of the sale
record: on success the line collection is replaced by the written one. -/
def apply_endicia_to_sale (env : Env) (s : Sale) : Except SaleError Sale :=
  match (apply_endicia_shipping env s).1 with
  | .error e => .error e
  | .ok ls => .ok { s with lines := ls }

/-- Embeds Sale.update_endicia_shipment_cost (src/sale.py lines 159-164):
the sales are visited one at a time, in order, each through its own
apply_endicia_shipping call. -/
def update_endicia_shipment_cost (env : Env) : List Sale → Except SaleError (List Sale)
  | [] => .ok []
  | s :: rest =>
    match apply_endicia_to_sale env s with
    | .error e => .error e
    | .ok s2 =>
      match update_endicia_shipment_cost env rest with
      | .error e => .error e
      | .ok rest2 => .ok (s2 :: rest2)

/-- Embeds Sale.quote (src/sale.py lines 153-157): run the base quotation
procedure on the whole batch first, then update the shipment cost of every
quoted sale, and hand back the base procedure's own result. The base
procedure is the external host collaborator, modelled as a function from
the batch to the transformed batch paired with its return value. -/
def quote {α : Type} (base_quote : List Sale → List Sale × α) (env : Env)
    (sales : List Sale) : Except SaleError (List Sale × α) :=
  let b := base_quote sales
  match update_endicia_shipment_cost env b.1 with
  | .error e => .error e
  | .ok sales2 => .ok (sales2, b.2)

/-- Outbound shipment fields touched by Sale.create_shipment: the two
inherited endicia fields, the overwritten cost, and the addressing context
(origin warehouse zip and delivery address) the recomputation runs in. -/
structure ShipmentOut where
  endicia_mailclass : Option MailClass
  is_endicia_shipping : Bool
  cost : ℚ
  warehouse_zip : String
  delivery_address : Address
deriving DecidableEq

/-- Modelled from the spec: the dispatch of carrier.get_sale_price() under
shipment.get_carrier_context() (src/sale.py lines 178-181) lands in this
repository's stock module, which is not part of src/; the spec states the
shipment cost is recomputed "using the same carrier rate lookup, now
evaluated in the shipment's addressing context rather than the order's".
So the lookup is get_endicia_shipping_cost with the origin and destination
taken from the shipment. -/
def get_shipment_rate (env : Env) (s : Sale) (sh : ShipmentOut) : Except SaleError ℚ :=
  get_endicia_shipping_cost env
    { s with warehouse_zip := sh.warehouse_zip
             shipment_address := sh.delivery_address }

/-- The cost-overwriting loop of Sale.create_shipment (src/sale.py lines
178-181): each shipment's cost field is overwritten with the rate fetched
in that shipment's own carrier context. -/
def write_shipment_costs (env : Env) (s : Sale) :
    List ShipmentOut → Except SaleError (List ShipmentOut)
  | [] => .ok []
  | sh :: rest =>
    match get_shipment_rate env s sh with
    | .error e => .error e
    | .ok c =>
      match write_shipment_costs env s rest with
      | .error e => .error e
      | .ok rest2 => .ok ({ sh with cost := c } :: rest2)

/-- Embeds Sale.create_shipment (src/sale.py lines 166-182). The base
operation's shipments are given as input. For an outbound shipment batch
of a sale carried by endicia, the endicia_mailclass and
is_endicia_shipping fields are first written onto every shipment (reading
self.endicia_mailclass.id, which on a sale without mail class is an
attribute access on None), then every shipment's cost is overwritten with
the rate recomputed in its own context. -/
def create_shipment (env : Env) (base_shipments : List ShipmentOut) (s : Sale)
    (shipment_type : String) : Except SaleError (List ShipmentOut) :=
  match s.carrier with
  | none => .ok base_shipments
  | some carrier =>
    if shipment_type = "out" ∧ base_shipments ≠ [] ∧
        carrier.carrier_cost_method = "endicia" then
      match s.endicia_mailclass with
      | none => .error .none_attribute
      | some mc =>
        write_shipment_costs env s (base_shipments.map (fun sh =>
          { sh with endicia_mailclass := some mc
                    is_endicia_shipping := s.is_endicia_shipping }))
    else .ok base_shipments

/-- Weight contribution of one physical line as section 4.2 of the spec
words it: quantity converted into the product's default unit of measure
when the line's unit differs, multiplied by the per-unit weight, converted
into ounces when the product's weight unit is not already ounces, and
rounded up. Kept separate from the source embedding so the two can be
compared. -/
def spec_line_weight (env : Env) (l : SaleLine) (w : ℚ) : ℤ :=
  let qty : ℚ :=
    if l.unit = l.product.default_uom then l.quantity
    else env.compute_qty l.unit l.quantity l.product.default_uom
  let raw : ℚ := w * qty
  let oz : ℚ :=
    if l.product.weight_uom.symbol = "oz" then raw
    else env.compute_qty l.product.weight_uom raw env.ounce
  ⌈oz⌉

/- Concrete fixtures used by witnesses and counterexamples. -/

/-- The ounce unit of measure. -/
def oz_uom : Uom := { id := 1, symbol := "oz" }

/-- A plain count unit of measure. -/
def unit_uom : Uom := { id := 2, symbol := "u" }

/-- Environment whose conversion service is the identity on quantities and
whose rate endpoint always answers 7. -/
def env0 : Env :=
  { compute_qty := fun _ q _ => q
    ounce := oz_uom
    postage := fun _ => 7 }

/-- A physical product weighing 5 oz per unit. -/
def widget : Product :=
  { id := 10, name := "Widget", type := "goods", weight := some 5
    default_uom := unit_uom, weight_uom := oz_uom, sale_uom := unit_uom }

/-- The carrier's service product; it has no weight of its own. -/
def postage_product : Product :=
  { id := 11, name := "Postage", type := "service", weight := none
    default_uom := unit_uom, weight_uom := oz_uom, sale_uom := unit_uom }

/-- A carrier using the endicia cost method. -/
def carrier0 : Carrier :=
  { carrier_cost_method := "endicia", carrier_product := postage_product }

/-- A mail class. -/
def mc0 : MailClass := { name := "First-Class Mail", value := "First" }

/-- A destination address. -/
def addr0 : Address := { zip := "10001", country_code := "US" }

/-- Account credentials. -/
def creds0 : EndiciaCredentials :=
  { account_id := 123, requester_id := "r", passphrase := "p", usps_test := true }

/-- A physical merchandise line whose sequence 10000 exceeds the fixed
sequence 9999 given to generated shipping lines. -/
def line_hi : SaleLine :=
  { type := "line", product := widget, description := "Widget", quantity := 1
    unit := unit_uom, unit_price := 10, shipment_cost := none, amount := 10
    taxes := [], sequence := 10000 }

/-- A sale carried by endicia with a mail class and one merchandise line. -/
def sale0 : Sale :=
  { carrier := some carrier0, endicia_mailclass := some mc0
    is_endicia_shipping := true, lines := [line_hi]
    warehouse_zip := "94101", shipment_address := addr0, credentials := creds0 }

/-- The postage request sale0 produces under env0. -/
def req0 : PostageRequest :=
  { mailclass := "First", weightoz := 5
    from_postal_code := "94101", to_postal_code := "10001"
    to_country_code := "US", accountid := 123, requesterid := "r"
    passphrase := "p", test := true }

/-- The sale0 variant without a mail class. -/
def sale_nomc : Sale := { sale0 with endicia_mailclass := none }

/-- A product whose raw per-unit weight is 2.01 oz. -/
def w201 : Product := { widget with weight := some 2.01 }

/-- A product whose raw per-unit weight is exactly 2 oz. -/
def w200 : Product := { widget with weight := some 2 }

/-- A quantity-one line of the 2.01 oz product. -/
def line201 : SaleLine := { line_hi with product := w201 }

/-- A quantity-one line of the 2 oz product. -/
def line200 : SaleLine := { line_hi with product := w200 }

/-- Environment whose rate endpoint answers the negative figure -1. -/
def env_neg : Env := { env0 with postage := fun _ => -1 }

/-- Environment whose rate endpoint answers 0. -/
def env_zero : Env := { env0 with postage := fun _ => 0 }

/-- The sale0 record after a first successful shipping application. -/
def sale0_after : Sale :=
  { sale0 with lines := [line_hi, mk_shipping_line carrier0 mc0 7] }

/-- A physical line whose product has no configured weight. -/
def line_now : SaleLine :=
  { line_hi with product := { widget with weight := none } }

/-- A sale carrying only the weightless physical line. -/
def sale_noweight : Sale := { sale0 with lines := [line_now] }

/-- Environment whose rate depends on the destination postal code, to tell
the sale's addressing context apart from a shipment's. -/
def env8 : Env :=
  { env0 with postage := fun r => if r.to_postal_code = "20500" then 9 else 7 }

/-- The delivery address of the outbound shipment, different from the
sale's own shipment address. -/
def addr8 : Address := { zip := "20500", country_code := "US" }

/-- An outbound shipment as the base operation created it: endicia fields
not yet inherited, cost still the default. -/
def ship8 : ShipmentOut :=
  { endicia_mailclass := none, is_endicia_shipping := false, cost := 0
    warehouse_zip := "94101", delivery_address := addr8 }

/-- The shipment batch create_shipment produces from ship8 under env8. -/
def res8 : List ShipmentOut :=
  [{ ship8 with endicia_mailclass := some mc0, is_endicia_shipping := true
                cost := 9 }]

/-- A sale without any carrier and without a mail class. -/
def sale_nocarrier : Sale := { sale0 with carrier := none, endicia_mailclass := none }

/-- A line holding a service product that has no configured weight. -/
def line_svc : SaleLine := { line_hi with product := postage_product }

/-- Evaluation: the merchandise line weighs 5 oz. -/
theorem line_hi_weight : get_weight_for_endicia env0 line_hi = .ok 5 := by
  simp +decide [get_weight_for_endicia, line_hi, widget, unit_uom, oz_uom, env0,
    Int.ceil_eq_iff]

/-- Evaluation: sale0 builds the request req0 under env0. -/
theorem build_req0 : build_postage_request env0 sale0 = .ok req0 := by
  simp +decide [build_postage_request, weight_sum, get_weight_for_endicia, sale0,
    line_hi, widget, unit_uom, oz_uom, mc0, addr0, creds0, env0, req0, Int.ceil_eq_iff]

/- Structural lemmas about the applicator. -/

/-- When the carrier uses the endicia cost method, a mail class is set, the
request builds, and the returned cost is not the falsy zero, the applicator
performs exactly the bulk write of src/sale.py lines 133-151: it keeps the
lines whose shipment_cost is falsy and appends the one generated shipping
line, after exactly one rate-API call. -/
theorem apply_endicia_shipping_mutation (env : Env) (s : Sale) (carrier : Carrier)
    (mc : MailClass) (req : PostageRequest)
    (hc : s.carrier = some carrier) (hm : carrier.carrier_cost_method = "endicia")
    (hmc : s.endicia_mailclass = some mc)
    (hreq : build_postage_request env s = .ok req)
    (h0 : env.postage req ≠ 0) :
    apply_endicia_shipping env s =
      (.ok (s.lines.filter (fun l => ! is_shipping_line l) ++
        [mk_shipping_line carrier mc (env.postage req)]), 1) := by
  unfold apply_endicia_shipping
  rw [hc]
  simp only [hm, if_pos rfl, hmc, hreq, h0, if_neg h0]
  simp

/-- Every error get_weight_for_endicia can raise is weight_required and
names the line's product. -/
theorem get_weight_error_shape (env : Env) (l : SaleLine) (e : SaleError)
    (h : get_weight_for_endicia env l = .error e) :
    e = .weight_required l.product.name := by
  unfold get_weight_for_endicia at h
  split at h
  · exact absurd h (by simp)
  · split at h
    · exact (Except.error.injEq _ _).mp h |>.symm
    · split at h
      · exact (Except.error.injEq _ _).mp h |>.symm
      · exact absurd h (by simp)

/-- If some line of the collection fails its weight computation, the
left-to-right summation fails with a weight_required error. -/
theorem weight_sum_error_of_mem (env : Env) (ls : List SaleLine) (l : SaleLine)
    (hl : l ∈ ls) (e : SaleError) (hfail : get_weight_for_endicia env l = .error e) :
    ∃ p, weight_sum env ls = .error (.weight_required p) := by
  induction ls with
  | nil => cases hl
  | cons hd tl ih =>
    rcases List.mem_cons.mp hl with hhd | htl
    · subst hhd
      refine ⟨l.product.name, ?_⟩
      unfold weight_sum
      rw [hfail, get_weight_error_shape env l e hfail]
    · cases hw : get_weight_for_endicia env hd with
      | error e2 =>
        refine ⟨hd.product.name, ?_⟩
        unfold weight_sum
        rw [hw, get_weight_error_shape env hd e2 hw]
      | ok w =>
        obtain ⟨p, hp⟩ := ih htl
        refine ⟨p, ?_⟩
        unfold weight_sum
        rw [hw, hp]

/-- A generated shipping line with a nonzero cost carries a truthy
shipment_cost marker. -/
theorem mk_shipping_line_is_shipping (carrier : Carrier) (mc : MailClass)
    (c : ℚ) (hc : c ≠ 0) : is_shipping_line (mk_shipping_line carrier mc c) = true := by
  simp [is_shipping_line, mk_shipping_line, hc]

/-- The written line collection contains exactly one shipping-charge line
when the generated line's cost is nonzero. -/
theorem shipping_line_count_write (carrier : Carrier) (mc : MailClass) (c : ℚ)
    (hc : c ≠ 0) (ls : List SaleLine) :
    shipping_line_count (ls.filter (fun l => ! is_shipping_line l) ++
      [mk_shipping_line carrier mc c]) = 1 := by
  unfold shipping_line_count
  rw [List.filter_append]
  have h1 : (ls.filter (fun l => ! is_shipping_line l)).filter is_shipping_line = [] := by
    rw [List.filter_filter]
    apply List.filter_eq_nil_iff.mpr
    intro a _
    cases h : is_shipping_line a <;> simp [h]
  have h2 : [mk_shipping_line carrier mc c].filter is_shipping_line =
      [mk_shipping_line carrier mc c] := by
    simp [List.filter, mk_shipping_line_is_shipping carrier mc c hc]
  rw [h1, h2]
  rfl

/-- A successful batch update is the pointwise application of the
per-sale procedure: same length, and the i-th output sale is the i-th
input sale with shipping applied. -/
theorem update_endicia_shipment_cost_pointwise (env : Env) (sales out : List Sale)
    (h : update_endicia_shipment_cost env sales = .ok out) :
    out.length = sales.length ∧
    ∀ i (hi : i < sales.length) (ho : i < out.length),
      apply_endicia_to_sale env (sales.get ⟨i, hi⟩) = .ok (out.get ⟨i, ho⟩) := by
  induction sales generalizing out with
  | nil =>
    unfold update_endicia_shipment_cost at h
    injection h with h2
    subst h2
    exact ⟨rfl, fun i hi => absurd hi (Nat.not_lt_zero i)⟩
  | cons s rest ih =>
    unfold update_endicia_shipment_cost at h
    cases ha : apply_endicia_to_sale env s with
    | error e => rw [ha] at h; cases h
    | ok s2 =>
      rw [ha] at h
      cases hr : update_endicia_shipment_cost env rest with
      | error e => rw [hr] at h; cases h
      | ok rest2 =>
        rw [hr] at h
        injection h with h2
        subst h2
        obtain ⟨hlen, hpt⟩ := ih rest2 hr
        refine ⟨by simp [hlen], ?_⟩
        intro i hi ho
        cases i with
        | zero => simpa using ha
        | succ j =>
          exact hpt j (Nat.lt_of_succ_lt_succ (by simpa using hi))
            (Nat.lt_of_succ_lt_succ (by simpa using ho))

/-- A successful cost-overwriting pass is pointwise: the i-th output
shipment is the i-th input shipment with its cost overwritten by the rate
fetched in that shipment's own context. -/
theorem write_shipment_costs_pointwise (env : Env) (s : Sale)
    (shs out : List ShipmentOut) (h : write_shipment_costs env s shs = .ok out) :
    out.length = shs.length ∧
    ∀ i (hi : i < shs.length) (ho : i < out.length),
      ∃ c, get_shipment_rate env s (shs.get ⟨i, hi⟩) = .ok c ∧
        out.get ⟨i, ho⟩ = { shs.get ⟨i, hi⟩ with cost := c } := by
  induction shs generalizing out with
  | nil =>
    unfold write_shipment_costs at h
    injection h with h2
    subst h2
    exact ⟨rfl, fun i hi => absurd hi (Nat.not_lt_zero i)⟩
  | cons sh rest ih =>
    unfold write_shipment_costs at h
    cases hg : get_shipment_rate env s sh with
    | error e => rw [hg] at h; cases h
    | ok c =>
      rw [hg] at h
      cases hr : write_shipment_costs env s rest with
      | error e => rw [hr] at h; cases h
      | ok rest2 =>
        rw [hr] at h
        injection h with h2
        subst h2
        obtain ⟨hlen, hpt⟩ := ih rest2 hr
        refine ⟨by simp [hlen], ?_⟩
        intro i hi ho
        cases i with
        | zero => exact ⟨c, hg, rfl⟩
        | succ j =>
          exact hpt j (Nat.lt_of_succ_lt_succ (by simpa using hi))
            (Nat.lt_of_succ_lt_succ (by simpa using ho))

/-- Overwriting the cost of a shipment does not change the rate fetched in
its addressing context. -/
theorem get_shipment_rate_cost_irrel (env : Env) (s : Sale) (sh : ShipmentOut)
    (c : ℚ) : get_shipment_rate env s { sh with cost := c } = get_shipment_rate env s sh :=
  rfl

/-- Evaluation: applying shipping to sale0 under env0 writes the line
collection keeping the merchandise line and appending the 7-cost shipping
line, with one rate-API call. -/
theorem apply_sale0_eval :
    apply_endicia_shipping env0 sale0 =
      (.ok [line_hi, mk_shipping_line carrier0 mc0 7], 1) := by
  rw [apply_endicia_shipping_mutation env0 sale0 carrier0 mc0 req0 rfl rfl rfl
    build_req0 (by norm_num [env0])]
  simp +decide [sale0, line_hi, is_shipping_line, env0]

/-- Evaluation: the per-sale procedure maps sale0 to sale0_after. -/
theorem apply_to_sale0_eval : apply_endicia_to_sale env0 sale0 = .ok sale0_after := by
  unfold apply_endicia_to_sale
  rw [apply_sale0_eval]
  rfl

/-- Evaluation: the re-applied sale builds the same request, because the
generated shipping line holds a service product contributing no weight. -/
theorem build_req0_after : build_postage_request env0 sale0_after = .ok req0 := by
  simp +decide [build_postage_request, weight_sum, get_weight_for_endicia,
    sale0_after, sale0, line_hi, widget, unit_uom, oz_uom, mc0, addr0, creds0,
    env0, req0, mk_shipping_line, carrier0, postage_product, Int.ceil_eq_iff]

/-- Evaluation: under the negative-rate endpoint the same request builds. -/
theorem build_req0_neg : build_postage_request env_neg sale0 = .ok req0 := by
  simp +decide [build_postage_request, weight_sum, get_weight_for_endicia, sale0,
    line_hi, widget, unit_uom, oz_uom, mc0, addr0, creds0, env0, env_neg, req0,
    Int.ceil_eq_iff]

/-- Evaluation: under the zero-rate endpoint the same request builds. -/
theorem build_req0_zero : build_postage_request env_zero sale0 = .ok req0 := by
  simp +decide [build_postage_request, weight_sum, get_weight_for_endicia, sale0,
    line_hi, widget, unit_uom, oz_uom, mc0, addr0, creds0, env0, env_zero, req0,
    Int.ceil_eq_iff]

/-- Evaluation: converting sale0 to an outbound shipment under env8 yields
the res8 batch, whose cost 9 is the rate at the shipment's destination. -/
theorem create_res8 : create_shipment env8 [ship8] sale0 "out" = .ok res8 := by
  simp +decide [create_shipment, write_shipment_costs, get_shipment_rate,
    get_endicia_shipping_cost, build_postage_request, weight_sum,
    get_weight_for_endicia, sale0, line_hi, widget, unit_uom, oz_uom, mc0,
    addr0, addr8, creds0, env0, env8, carrier0, ship8, res8, Int.ceil_eq_iff]

/-- The res8 batch is nonempty. -/
theorem res8_len0 : 0 < res8.length := by simp [res8]

/-- C1 (amended): for every sale whose carrier cost method is endicia,
with a mail class set, when the rate lookup returns a positive cost,
applying shipping removes every existing line whose shipment-cost flag is
truthy and appends exactly one new line — quantity 1, unit the carrier
product's sale unit, description the mail-class name, unit price, amount
and shipment cost all the returned cost, no taxes (see mk_shipping_line) —
assigned the fixed sequence value 9999, which is the highest sequence
value whenever every pre-existing line's sequence is at most 9999. -/
theorem C1_apply_positive_rate (env : Env) (s : Sale) (carrier : Carrier)
    (mc : MailClass) (req : PostageRequest)
    (hc : s.carrier = some carrier) (hm : carrier.carrier_cost_method = "endicia")
    (hmc : s.endicia_mailclass = some mc)
    (hreq : build_postage_request env s = .ok req)
    (hpos : 0 < env.postage req) :
    apply_endicia_shipping env s =
      (.ok (s.lines.filter (fun l => ! is_shipping_line l) ++
        [mk_shipping_line carrier mc (env.postage req)]), 1) ∧
    (mk_shipping_line carrier mc (env.postage req)).sequence = 9999 ∧
    ((∀ l ∈ s.lines, l.sequence ≤ 9999) →
      ∀ l ∈ s.lines.filter (fun l => ! is_shipping_line l) ++
        [mk_shipping_line carrier mc (env.postage req)],
        l.sequence ≤ (mk_shipping_line carrier mc (env.postage req)).sequence) := by
  refine ⟨apply_endicia_shipping_mutation env s carrier mc req hc hm hmc hreq hpos.ne',
    rfl, ?_⟩
  intro hseq l hl
  rcases List.mem_append.mp hl with hf | hs
  · exact hseq l (List.mem_of_mem_filter hf)
  · rw [List.mem_singleton.mp hs]

/-- C1 witness: the amended theorem applied to the concrete sale0, whose
rate under env0 is the positive 7. -/
theorem C1_apply_positive_rate_witness :
    apply_endicia_shipping env0 sale0 =
      (.ok (sale0.lines.filter (fun l => ! is_shipping_line l) ++
        [mk_shipping_line carrier0 mc0 (env0.postage req0)]), 1) :=
  (C1_apply_positive_rate env0 sale0 carrier0 mc0 req0 rfl rfl rfl build_req0
    (by norm_num [env0])).1

/-- C1 counterexample: on sale0 — one merchandise line of sequence 10000 —
a positive returned rate appends the shipping line with sequence 9999,
which is not the highest sequence value of the resulting ordering. -/
theorem C1_counterexample :
    (apply_endicia_shipping env0 sale0).1 =
      .ok [line_hi, mk_shipping_line carrier0 mc0 7] ∧
    ¬ ∀ l ∈ [line_hi, mk_shipping_line carrier0 mc0 7],
        l.sequence ≤ (mk_shipping_line carrier0 mc0 7).sequence := by
  refine ⟨by rw [apply_sale0_eval], ?_⟩
  intro hall
  exact absurd (hall line_hi (by simp)) (by decide)

/-- C2: a sale carried by endicia without a mail class fails with the
mailclass_missing error, with zero rate-API calls made, and its line
collection is unchanged. -/
theorem C2_missing_mailclass (env : Env) (s : Sale) (carrier : Carrier)
    (hc : s.carrier = some carrier) (hm : carrier.carrier_cost_method = "endicia")
    (hmc : s.endicia_mailclass = none) :
    apply_endicia_shipping env s = (.error .mailclass_missing, 0) ∧
    lines_after_apply env s = s.lines := by
  have h : apply_endicia_shipping env s = (.error .mailclass_missing, 0) := by
    unfold apply_endicia_shipping
    rw [hc]
    simp [hm, hmc]
  exact ⟨h, by unfold lines_after_apply; rw [h]⟩

/-- C2 witness: the theorem applied to the concrete mail-class-less sale. -/
theorem C2_missing_mailclass_witness :
    apply_endicia_shipping env0 sale_nomc = (.error .mailclass_missing, 0) ∧
    lines_after_apply env0 sale_nomc = sale_nomc.lines :=
  C2_missing_mailclass env0 sale_nomc carrier0 rfl rfl rfl

/-- C3: the per-line weight contribution — service lines contribute zero;
a physical line with a configured (truthy) weight contributes the
spec-side formula: quantity converted into the product's default unit when
the line's unit differs, multiplied by the per-unit weight, converted into
ounces when the weight unit is not ounces, rounded up; in particular a raw
weight of 2.01 oz yields 3 and exactly 2 oz yields 2. -/
theorem C3_line_weight_contribution :
    (∀ (env : Env) (l : SaleLine), l.product.type = "service" →
      get_weight_for_endicia env l = .ok 0) ∧
    (∀ (env : Env) (l : SaleLine) (w : ℚ), l.product.type ≠ "service" →
      l.product.weight = some w → w ≠ 0 →
      get_weight_for_endicia env l = .ok (spec_line_weight env l w)) ∧
    get_weight_for_endicia env0 line201 = .ok 3 ∧
    get_weight_for_endicia env0 line200 = .ok 2 := by
  refine ⟨?_, ?_, ?_, ?_⟩
  · intro env l h
    unfold get_weight_for_endicia
    rw [if_pos h]
  · intro env l w hserv hw h0
    simp only [get_weight_for_endicia, spec_line_weight, hw, if_neg hserv,
      if_neg h0, ite_not]
  · simp +decide [get_weight_for_endicia, line201, w201, widget, line_hi,
      unit_uom, oz_uom, env0]
    norm_num [Int.ceil_eq_iff]
  · simp +decide [get_weight_for_endicia, line200, w200, widget, line_hi,
      unit_uom, oz_uom, env0, Int.ceil_eq_iff]

/-- C3 witness: the physical-line clause applied to the concrete 5 oz
merchandise line. -/
theorem C3_line_weight_contribution_witness :
    get_weight_for_endicia env0 line_hi = .ok (spec_line_weight env0 line_hi 5) :=
  C3_line_weight_contribution.2.1 env0 line_hi 5 (by decide) rfl (by norm_num)

/-- C4 (amended): when the rate API answers the falsy zero cost, applying
shipping performs no line mutation (and the single rate call is made). -/
theorem C4_zero_rate_no_mutation (env : Env) (s : Sale) (carrier : Carrier)
    (mc : MailClass) (req : PostageRequest)
    (hc : s.carrier = some carrier) (hm : carrier.carrier_cost_method = "endicia")
    (hmc : s.endicia_mailclass = some mc)
    (hreq : build_postage_request env s = .ok req)
    (h0 : env.postage req = 0) :
    apply_endicia_shipping env s = (.ok s.lines, 1) ∧
    lines_after_apply env s = s.lines := by
  have h : apply_endicia_shipping env s = (.ok s.lines, 1) := by
    unfold apply_endicia_shipping
    rw [hc]
    simp [hm, hmc, hreq, h0]
  exact ⟨h, by unfold lines_after_apply; rw [h]⟩

/-- C4 witness: the amended theorem applied to sale0 under the zero-rate
endpoint. -/
theorem C4_zero_rate_no_mutation_witness :
    apply_endicia_shipping env_zero sale0 = (.ok sale0.lines, 1) ∧
    lines_after_apply env_zero sale0 = sale0.lines :=
  C4_zero_rate_no_mutation env_zero sale0 carrier0 mc0 req0 rfl rfl rfl
    build_req0_zero (by norm_num [env_zero])

/-- C4 counterexample: the claim says a non-positive returned cost leaves
the line collection identical, but the code only short-circuits on falsy
values — on the returned cost -1 (non-positive) the collection is mutated. -/
theorem C4_counterexample :
    build_postage_request env_neg sale0 = .ok req0 ∧
    env_neg.postage req0 = -1 ∧
    (apply_endicia_shipping env_neg sale0).1 =
      .ok [line_hi, mk_shipping_line carrier0 mc0 (-1)] ∧
    lines_after_apply env_neg sale0 ≠ sale0.lines := by
  have happ : (apply_endicia_shipping env_neg sale0).1 =
      .ok [line_hi, mk_shipping_line carrier0 mc0 (-1)] := by
    rw [apply_endicia_shipping_mutation env_neg sale0 carrier0 mc0 req0 rfl rfl
      rfl build_req0_neg (by norm_num [env_neg])]
    simp +decide [sale0, line_hi, is_shipping_line, env_neg]
  refine ⟨build_req0_neg, rfl, happ, ?_⟩
  intro hlines
  have hlen := congrArg List.length hlines
  rw [lines_after_apply, happ] at hlen
  simp [sale0] at hlen

/-- C5: under the conditions in which shipping is actually applied —
endicia carrier, mail class set, nonzero returned rate — the written
collection holds exactly one shipping-charge line, and a second
application returning the same (hence nonzero) rate again leaves exactly
one shipping-charge line, not two. -/
theorem C5_one_shipping_line (env : Env) (s : Sale) (carrier : Carrier)
    (mc : MailClass) (req : PostageRequest)
    (hc : s.carrier = some carrier) (hm : carrier.carrier_cost_method = "endicia")
    (hmc : s.endicia_mailclass = some mc)
    (hreq : build_postage_request env s = .ok req)
    (h0 : env.postage req ≠ 0) :
    (∀ ls, (apply_endicia_shipping env s).1 = .ok ls →
      shipping_line_count ls = 1) ∧
    (∀ ls req2, (apply_endicia_shipping env s).1 = .ok ls →
      build_postage_request env { s with lines := ls } = .ok req2 →
      env.postage req2 = env.postage req →
      ∀ ls2, (apply_endicia_shipping env { s with lines := ls }).1 = .ok ls2 →
        shipping_line_count ls2 = 1) := by
  have hmut := apply_endicia_shipping_mutation env s carrier mc req hc hm hmc hreq h0
  constructor
  · intro ls hls
    rw [hmut] at hls
    injection hls with h2
    rw [← h2]
    exact shipping_line_count_write carrier mc (env.postage req) h0 s.lines
  · intro ls req2 _ hreq2 hsame ls2 hls2
    have h02 : env.postage req2 ≠ 0 := by rw [hsame]; exact h0
    have hmut2 := apply_endicia_shipping_mutation env { s with lines := ls }
      carrier mc req2 hc hm hmc hreq2 h02
    rw [hmut2] at hls2
    injection hls2 with h2
    rw [← h2]
    exact shipping_line_count_write carrier mc (env.postage req2) h02 ls

/-- C5 witness: applying shipping twice to sale0 with the same returned
rate 7 both times leaves exactly one shipping-charge line. -/
theorem C5_one_shipping_line_witness :
    shipping_line_count [line_hi, mk_shipping_line carrier0 mc0 7] = 1 :=
  (C5_one_shipping_line env0 sale0 carrier0 mc0 req0 rfl rfl rfl build_req0
      (by norm_num [env0])).2
    [line_hi, mk_shipping_line carrier0 mc0 7] req0
    (by rw [apply_sale0_eval])
    build_req0_after rfl
    [line_hi, mk_shipping_line carrier0 mc0 7]
    (by
      show (apply_endicia_shipping env0 sale0_after).1 =
        .ok [line_hi, mk_shipping_line carrier0 mc0 7]
      rw [apply_endicia_shipping_mutation env0 sale0_after carrier0 mc0 req0 rfl
        rfl rfl build_req0_after (by norm_num [env0])]
      simp +decide [sale0_after, sale0, line_hi, is_shipping_line,
        mk_shipping_line, env0])

/-- C6: a physical line whose product has no configured weight fails its
weight computation with weight_required naming that product, and for a
sale carried by endicia with a mail class the error propagates to the
applicator, which aborts with a weight_required error, zero rate-API
calls, and an unchanged line collection. -/
theorem C6_missing_weight (env : Env) (s : Sale) (carrier : Carrier)
    (mc : MailClass) (l : SaleLine)
    (hc : s.carrier = some carrier) (hm : carrier.carrier_cost_method = "endicia")
    (hmc : s.endicia_mailclass = some mc) (hl : l ∈ s.lines)
    (hserv : l.product.type ≠ "service") (hw : l.product.weight = none) :
    get_weight_for_endicia env l = .error (.weight_required l.product.name) ∧
    ∃ p, apply_endicia_shipping env s = (.error (.weight_required p), 0) ∧
      lines_after_apply env s = s.lines := by
  have hfail : get_weight_for_endicia env l =
      .error (.weight_required l.product.name) := by
    unfold get_weight_for_endicia
    rw [if_neg hserv, hw]
  obtain ⟨p, hp⟩ := weight_sum_error_of_mem env s.lines l hl _ hfail
  have hbuild : build_postage_request env s = .error (.weight_required p) := by
    unfold build_postage_request
    rw [hmc, hp]
  have happ : apply_endicia_shipping env s = (.error (.weight_required p), 0) := by
    unfold apply_endicia_shipping
    rw [hc]
    simp [hm, hmc, hbuild]
  exact ⟨hfail, p, happ, by unfold lines_after_apply; rw [happ]⟩

/-- C6 witness: the theorem applied to the concrete sale holding one
weightless physical line. -/
theorem C6_missing_weight_witness :
    get_weight_for_endicia env0 line_now =
      .error (.weight_required line_now.product.name) ∧
    ∃ p, apply_endicia_shipping env0 sale_noweight =
      (.error (.weight_required p), 0) ∧
      lines_after_apply env0 sale_noweight = sale_noweight.lines :=
  C6_missing_weight env0 sale_noweight carrier0 mc0 line_now rfl rfl rfl
    (by simp [sale_noweight, sale0]) (by decide) rfl

/-- C7: quotation runs the base procedure on the whole batch first, then
updates the shipment cost of the quoted sales and returns the base
procedure's result; the update visits the sales pointwise, one at a time,
each through its own application of the per-sale procedure. -/
theorem C7_quote_base_then_each {α : Type} (base_quote : List Sale → List Sale × α)
    (env : Env) (sales : List Sale) :
    (quote base_quote env sales =
      match update_endicia_shipment_cost env (base_quote sales).1 with
      | .error e => .error e
      | .ok sales2 => .ok (sales2, (base_quote sales).2)) ∧
    (∀ out, update_endicia_shipment_cost env sales = .ok out →
      out.length = sales.length ∧
      ∀ i (hi : i < sales.length) (ho : i < out.length),
        apply_endicia_to_sale env (sales.get ⟨i, hi⟩) = .ok (out.get ⟨i, ho⟩)) :=
  ⟨rfl, fun out h => update_endicia_shipment_cost_pointwise env sales out h⟩

/-- C7 witness: in the singleton batch holding sale0, the update applies
the per-sale procedure to sale0 itself. -/
theorem C7_quote_base_then_each_witness :
    apply_endicia_to_sale env0 sale0 = .ok sale0_after :=
  ((C7_quote_base_then_each (fun ss => (ss, 42)) env0 [sale0]).2 [sale0_after]
    (by
      unfold update_endicia_shipment_cost
      rw [apply_to_sale0_eval]
      rfl)).2
    0 (by simp) (by simp)

/-- C8: an outbound shipment batch of an endicia-carried sale inherits the
sale's mail class and shipping-method flag on every shipment, and every
shipment's cost field is overwritten with the rate lookup evaluated in
that shipment's own addressing context, which the write preserves. -/
theorem C8_shipment_inherits_and_recomputes (env : Env) (s : Sale)
    (carrier : Carrier) (mc : MailClass) (base out : List ShipmentOut)
    (hc : s.carrier = some carrier) (hm : carrier.carrier_cost_method = "endicia")
    (hmc : s.endicia_mailclass = some mc) (hbase : base ≠ [])
    (hr : create_shipment env base s "out" = .ok out) :
    out.length = base.length ∧
    ∀ i (ho : i < out.length) (hb : i < base.length),
      (out.get ⟨i, ho⟩).endicia_mailclass = some mc ∧
      (out.get ⟨i, ho⟩).is_endicia_shipping = s.is_endicia_shipping ∧
      get_shipment_rate env s (out.get ⟨i, ho⟩) = .ok (out.get ⟨i, ho⟩).cost ∧
      (out.get ⟨i, ho⟩).warehouse_zip = (base.get ⟨i, hb⟩).warehouse_zip ∧
      (out.get ⟨i, ho⟩).delivery_address = (base.get ⟨i, hb⟩).delivery_address := by
  unfold create_shipment at hr
  simp only [hc] at hr
  rw [if_pos ⟨trivial, hbase, hm⟩] at hr
  simp only [hmc] at hr
  obtain ⟨hlen, hpt⟩ := write_shipment_costs_pointwise env s _ out hr
  rw [List.length_map] at hlen
  refine ⟨hlen, ?_⟩
  intro i ho hb
  obtain ⟨c, hcrate, hout⟩ := hpt i (by rw [List.length_map]; exact hb) ho
  rw [List.get_map] at hcrate hout
  rw [hout]
  refine ⟨rfl, rfl, ?_, rfl, rfl⟩
  rw [get_shipment_rate_cost_irrel]
  exact hcrate

/-- C8 witness: the theorem applied to the concrete batch; the inherited
fields are there and the cost satisfies the rate lookup in the shipment's
own context (9, while the sale's own context rates 7). -/
theorem C8_shipment_inherits_and_recomputes_witness :
    (res8.get ⟨0, res8_len0⟩).endicia_mailclass = some mc0 ∧
    (res8.get ⟨0, res8_len0⟩).is_endicia_shipping = sale0.is_endicia_shipping ∧
    get_shipment_rate env8 sale0 (res8.get ⟨0, res8_len0⟩) =
      .ok (res8.get ⟨0, res8_len0⟩).cost := by
  obtain ⟨h1, h2, h3, _, _⟩ :=
    (C8_shipment_inherits_and_recomputes env8 sale0 carrier0 mc0 [ship8] res8
      rfl rfl rfl (by simp) create_res8).2 0 res8_len0 (by simp)
  exact ⟨h1, h2, h3⟩

/-- C9: applying shipping to a sale with no carrier, or whose carrier uses
another cost method, is a complete no-op: ok outcome (no error, whatever
the mail class), unchanged lines, zero rate-API calls. -/
theorem C9_other_carrier_noop (env : Env) (s : Sale)
    (h : s.carrier = none ∨
      ∃ c, s.carrier = some c ∧ c.carrier_cost_method ≠ "endicia") :
    apply_endicia_shipping env s = (.ok s.lines, 0) := by
  unfold apply_endicia_shipping
  rcases h with h | ⟨c, hc, hk⟩
  · rw [h]
  · rw [hc]
    simp [hk]

/-- C9 witness: the theorem applied to the carrier-less, mail-class-less
sale. -/
theorem C9_other_carrier_noop_witness :
    apply_endicia_shipping env0 sale_nocarrier = (.ok sale_nocarrier.lines, 0) :=
  C9_other_carrier_noop env0 sale_nocarrier (Or.inl rfl)

/-- C10: a service line contributes weight zero with no error, whatever
its product's weight field holds — the service check precedes the
missing-weight check. -/
theorem C10_service_line_zero_weight (env : Env) (l : SaleLine)
    (h : l.product.type = "service") :
    get_weight_for_endicia env l = .ok 0 := by
  unfold get_weight_for_endicia
  rw [if_pos h]

/-- C10 witness: the theorem applied to the concrete line holding the
weightless service product. -/
theorem C10_service_line_zero_weight_witness :
    get_weight_for_endicia env0 line_svc = .ok 0 :=
  C10_service_line_zero_weight env0 line_svc rfl

end Endicia
